import Mathlib

/-!
Verification of the query-construction and pagination layer of the
placenta-research-database repository (src/database.py together with the
request handling in src/app.py).

The store is SQLite.  Rows are modelled as records carrying the integer
identifier (object_id) and the remaining fields as an association list
from column name to text value; a column missing from the list stands
for SQL NULL.  The SQL fragments that the Python code assembles are
given their SQLite semantics:

* LIKE is ASCII case-insensitive by default and interprets the percent
  and underscore characters as wildcards;
* a comparison or LIKE against NULL never matches;
* ORDER BY object_id sorts ascending;
* a negative OFFSET behaves like an offset of zero, and COUNT counts
  the rows matching the WHERE clause;
* bound parameters are modelled by passing the term and the filter
  values as data, never by string interpolation.

Numeric columns (sample_size, pmid) are represented by their text
rendering, which is what LIKE compares against in SQLite.
-/

/-- A stored row of the geo_metadata table: the integer identifier plus
the remaining fields keyed by column name; an absent key is NULL. -/
structure Record where
  object_id : Nat
  fields : List (String × String)
deriving DecidableEq

/-- Column access, NULL for a column the row does not carry. -/
def Record.getField (r : Record) (c : String) : Option String :=
  r.fields.lookup c

/-- The table as the store reports it: the column names in schema order
(as PRAGMA table_info returns them) and the rows. -/
structure Table where
  cols : List String
  rows : List Record
deriving DecidableEq

/-- ASCII case-insensitive character comparison, SQLite's default
collation for LIKE. -/
def charEqCI (a b : Char) : Bool := a.toLower == b.toLower

/-- One token of a LIKE pattern: the percent wildcard (any sequence),
the underscore wildcard (any single character), or a literal char. -/
inductive LikeTok where
  | percent
  | underscore
  | lit (c : Char)
deriving DecidableEq

/-- Reading a LIKE pattern: percent and underscore are wildcards,
everything else is literal (no ESCAPE clause is used by the code). -/
def patToks (p : List Char) : List LikeTok :=
  p.map fun c =>
    if c = '%' then LikeTok.percent
    else if c = '_' then LikeTok.underscore
    else LikeTok.lit c

/-- SQLite LIKE matching of a tokenised pattern against a string, with
an explicit recursion bound so that the function is structurally
recursive; the bound exceeds every chain of recursive calls, which
shorten the pattern or the string at each step. -/
def likeRunF : Nat → List LikeTok → List Char → Bool
  | 0, _, _ => false
  | _ + 1, [], s => s.isEmpty
  | n + 1, LikeTok.percent :: ps, [] => likeRunF n ps []
  | n + 1, LikeTok.percent :: ps, c :: cs =>
      likeRunF n ps (c :: cs) || likeRunF n (LikeTok.percent :: ps) cs
  | _ + 1, LikeTok.underscore :: _, [] => false
  | n + 1, LikeTok.underscore :: ps, _ :: cs => likeRunF n ps cs
  | _ + 1, LikeTok.lit _ :: _, [] => false
  | n + 1, LikeTok.lit a :: ps, c :: cs => charEqCI a c && likeRunF n ps cs

/-- SQLite LIKE matching of a tokenised pattern against a string. -/
def likeRun (p : List LikeTok) (s : List Char) : Bool :=
  likeRunF (p.length + s.length + 1) p s

/-- col LIKE pat for a TEXT column value. -/
def likeMatch (pat s : String) : Bool := likeRun (patToks pat.data) s.data

/-- col LIKE pat where the column may be NULL: NULL never matches. -/
def likeOpt (pat : String) : Option String → Bool
  | none => false
  | some s => likeMatch pat s

/-- t begins the string, under the store's case-insensitive comparison. -/
def startsWithCI : List Char → List Char → Bool
  | [], _ => true
  | _ :: _, [] => false
  | a :: ts, c :: cs => charEqCI a c && startsWithCI ts cs

/-- t occurs inside the string as a contiguous substring, under the
store's case-insensitive comparison. -/
def containsCI (t : List Char) : List Char → Bool
  | [] => startsWithCI t []
  | c :: cs => startsWithCI t (c :: cs) || containsCI t cs

/-- String-level substring test (store comparison). -/
def containsCIStr (t s : String) : Bool := containsCI t.data s.data

/-- Substring test against a possibly-NULL column. -/
def containsOptCI (t : String) : Option String → Bool
  | none => false
  | some s => containsCIStr t s

/-- The term is free of the LIKE metacharacters percent and underscore. -/
def noWild (t : String) : Bool :=
  t.data.all fun c => !(c = '%' || c = '_')

/-- The searchable columns: every column of the schema except the
identifier (database.py line 30 / line 194). -/
def textCols (cols : List String) : List String :=
  cols.filter fun c => c ≠ "object_id"

/-- The text clause: col LIKE '%term%' over every searchable column,
joined with OR (database.py lines 31-32 / 195-196). -/
def textClause (q : String) (cols : List String) (r : Record) : Bool :=
  cols.any fun c => likeOpt ("%" ++ q ++ "%") (r.getField c)

/-- col IN (v1, ..., vn) with bound values; NULL matches nothing. -/
def inClause (col : String) (vals : List String) (r : Record) : Bool :=
  match r.getField col with
  | none => false
  | some v => vals.contains v

/-- The filter selection as search_with_filters receives it: a dict that
may lack any of the three keys (none) or carry a possibly empty list. -/
structure Filters where
  organisms : Option (List String)
  data_types : Option (List String)
  library_strategies : Option (List String)
deriving DecidableEq

/-- One filter group contributes an IN clause exactly when its key is
present and its list non-empty (database.py lines 201, 205, 209). -/
def groupClause (col : String) : Option (List String) → List (Record → Bool)
  | some (v :: vs) => [inClause col (v :: vs)]
  | _ => []

/-- The clauses contributed by the filters argument; a missing dict
contributes nothing (database.py lines 200-212). -/
def filterClauses : Option Filters → List (Record → Bool)
  | none => []
  | some f =>
      groupClause "organism" f.organisms
        ++ groupClause "data_type" f.data_types
        ++ groupClause "library_strategy" f.library_strategies

/-- The clause contributed by the query argument: present exactly when
the argument is truthy, i.e. neither None nor empty
(database.py lines 191-197). -/
def textClauses (cols : List String) : Option String → List (Record → Bool)
  | none => []
  | some q => if q = "" then [] else [textClause q (textCols cols)]

/-- where_clauses as search_with_filters assembles it: the text clause
first, then one membership clause per non-empty filter group. -/
def buildClauses (cols : List String) (query : Option String)
    (filters : Option Filters) : List (Record → Bool) :=
  textClauses cols query ++ filterClauses filters

/-- Meaning of the assembled WHERE: the AND of the clauses; the empty
list is the code's trivially true clause 1=1 (database.py line 215). -/
def whereDenote (cs : List (Record → Bool)) (r : Record) : Bool :=
  cs.all fun c => c r

/-- ORDER BY object_id, ascending. -/
def sortByObjectId (l : List Record) : List Record :=
  List.insertionSort (fun a b => a.object_id ≤ b.object_id) l

instance : IsTotal Record fun a b => a.object_id ≤ b.object_id :=
  ⟨fun a b => Nat.le_total a.object_id b.object_id⟩

instance : IsTrans Record fun a b => a.object_id ≤ b.object_id :=
  ⟨fun _ _ _ h1 h2 => Nat.le_trans h1 h2⟩

/-- LIMIT lim OFFSET off with SQLite semantics: a negative offset reads
from the start, a negative limit means no limit. -/
def sqlSlice (rows : List Record) (lim off : Int) : List Record :=
  if lim < 0 then rows.drop off.toNat else (rows.drop off.toNat).take lim.toNat

/-- Python's (total + per_page - 1) // per_page, floor division
(database.py lines 57, 78, 236). -/
def totalPages (total : Nat) (per_page : Int) : Int :=
  Int.fdiv ((total : Int) + per_page - 1) per_page

/-- offset = (page - 1) * per_page (database.py lines 23, 63, 185). -/
def queryOffset (page per_page : Int) : Int := (page - 1) * per_page

/-- The dict returned by the paginated operations. -/
structure SearchResult where
  results : List Record
  total : Nat
  page : Int
  per_page : Int
  total_pages : Int
deriving DecidableEq

/-- The rows matching the assembled predicate, in result order. -/
def matchingRows (t : Table) (query : Option String)
    (filters : Option Filters) : List Record :=
  sortByObjectId (t.rows.filter (whereDenote (buildClauses t.cols query filters)))

/-- search_with_filters (database.py lines 182-237): builds the WHERE
clause from the optional text term and the optional filter dict, runs
the row query with LIMIT/OFFSET and the count query with the same
clause and parameters, and derives total_pages. -/
def search_with_filters (t : Table) (query : Option String)
    (filters : Option Filters) (page per_page : Int) : SearchResult :=
  { results := sqlSlice (matchingRows t query filters) per_page (queryOffset page per_page)
    total := (matchingRows t query filters).length
    page := page
    per_page := per_page
    total_pages := totalPages (matchingRows t query filters).length per_page }

/-- search_entries (database.py lines 17-58): the text clause is always
added, over every searchable column, with no filter groups. -/
def search_entries (t : Table) (query : String) (page per_page : Int) : SearchResult :=
  { results := sqlSlice (sortByObjectId (t.rows.filter (textClause query (textCols t.cols))))
      per_page (queryOffset page per_page)
    total := (t.rows.filter (textClause query (textCols t.cols))).length
    page := page
    per_page := per_page
    total_pages := totalPages (t.rows.filter (textClause query (textCols t.cols))).length per_page }

/-- get_all_entries (database.py lines 60-79): no WHERE clause. -/
def get_all_entries (t : Table) (page per_page : Int) : SearchResult :=
  { results := sqlSlice (sortByObjectId t.rows) per_page (queryOffset page per_page)
    total := t.rows.length
    page := page
    per_page := per_page
    total_pages := totalPages t.rows.length per_page }

/-- get_entry_by_id (database.py lines 81-90): fetchone on
WHERE object_id = ?, None when no row matches. -/
def get_entry_by_id (t : Table) (object_id : Nat) : Option Record :=
  (t.rows.filter fun r => r.object_id = object_id).head?

/-- The largest identifier present in the table (0 when empty). -/
def maxId (t : Table) : Nat :=
  (t.rows.map Record.object_id).foldr max 0

/-- get_column_info (database.py lines 92-153): the fixed registry from
column identifier to display label. -/
def get_column_info : List (String × String) :=
  [("object_id", "Object ID"),
   ("gse_id", "GEO Series ID"),
   ("data_type", "Data Type"),
   ("superseries", "SuperSeries"),
   ("sample_size", "Sample Size"),
   ("title", "Title"),
   ("organism", "Organism"),
   ("characteristics", "Characteristics"),
   ("extracted_molecule", "Extracted Molecule"),
   ("extraction_protocol", "Extraction Protocol"),
   ("library_strategy", "Library Strategy"),
   ("library_source", "Library Source"),
   ("library_selection", "Library Selection"),
   ("instrument_model", "Instrument Model"),
   ("assay_description", "Assay Description"),
   ("data_processing", "Data Processing"),
   ("platform_id", "Platform ID"),
   ("sra_study_id", "SRA Study ID"),
   ("bioproject_id", "BioProject ID"),
   ("file_types", "File Types"),
   ("submission_date", "Submission Date"),
   ("last_update_date", "Last Update Date"),
   ("organization_name", "Organization"),
   ("contact_name", "Contact Name"),
   ("email", "Email"),
   ("country", "Country"),
   ("pmid", "PubMed ID"),
   ("pmcid", "PMC ID"),
   ("doi", "DOI"),
   ("supervisor_name", "Supervisor/PI Name"),
   ("supervisor_email", "Supervisor/PI Email"),
   ("main_topic", "Main Topic"),
   ("pregnancy_trimester", "Pregnancy Trimester"),
   ("birthweight_provided", "Birthweight Provided"),
   ("ga_delivery_provided", "GA at Delivery Provided"),
   ("ga_delivery_weeks", "GA at Delivery (weeks)"),
   ("ga_collection_provided", "GA at Collection Provided"),
   ("ga_collection_weeks", "GA at Collection (weeks)"),
   ("sex_provided", "Sex of Offspring Provided"),
   ("parity_provided", "Parity Provided"),
   ("gravidity_provided", "Gravidity Provided"),
   ("offspring_number_provided", "Offspring Number Provided"),
   ("race_ethnicity_provided", "Race/Ethnicity Provided"),
   ("genetic_ancestry_provided", "Genetic Ancestry Provided"),
   ("maternal_height_provided", "Maternal Height Provided"),
   ("maternal_weight_provided", "Maternal Weight Provided"),
   ("paternal_height_provided", "Paternal Height Provided"),
   ("paternal_weight_provided", "Paternal Weight Provided"),
   ("maternal_age_provided", "Maternal Age Provided"),
   ("paternal_age_provided", "Paternal Age Provided"),
   ("pregnancy_complications_collected", "Pregnancy Complications Collected"),
   ("delivery_mode_provided", "Delivery Mode Provided"),
   ("pregnancy_complications_list", "Pregnancy Complications"),
   ("fetal_complications_listed", "Fetal Complications Listed"),
   ("fetal_complications_list", "Fetal Complications"),
   ("other_phenotypes", "Other Phenotypes"),
   ("hospital_center", "Hospital/Center"),
   ("sample_country", "Sample Collection Country")]

/-- The column identifiers of the registry, in schema order. -/
def allColumns : List String := get_column_info.map Prod.fst

/-- Python truthiness of the query argument: neither None nor empty. -/
def hasText : Option String → Bool
  | none => false
  | some s => !(s == "")

/-- The text term carried by the query argument. -/
def textTerm (q : Option String) : String := q.getD ""

/-- The organism values a filter selection effectively selects. -/
def selOrganisms : Option Filters → List String
  | none => []
  | some f => f.organisms.getD []

/-- The data_type values a filter selection effectively selects. -/
def selDataTypes : Option Filters → List String
  | none => []
  | some f => f.data_types.getD []

/-- The library_strategy values a filter selection effectively selects. -/
def selStrategies : Option Filters → List String
  | none => []
  | some f => f.library_strategies.getD []

/-- One observable action on the per-request store connection. -/
inductive StoreEvent where
  | acquire
  | execOk
  | execFail
  | release
deriving DecidableEq

/-- Running n consecutive store queries starting at index i, where
failOn says which queries raise: the events produced and whether all
queries succeeded.  A raising query ends the run at once, as an
uncaught Python exception ends the function body. -/
def runExecs (failOn : Nat -> Bool) : Nat -> Nat -> List StoreEvent × Bool
  | _, 0 => ([], true)
  | i, n + 1 =>
    if failOn i then ([StoreEvent.execFail], false)
    else
      let rest := runExecs failOn (i + 1) n
      (StoreEvent.execOk :: rest.1, rest.2)

/-- The connection events of a database.py operation that acquires a
connection, runs n queries, and reaches conn.close() only when no
query raised: none of the operations wraps the body in try/finally, so
the close is skipped as soon as a query raises. -/
def connEvents (n : Nat) (failOn : Nat -> Bool) : List StoreEvent :=
  StoreEvent.acquire ::
    ((runExecs failOn 0 n).1 ++ if (runExecs failOn 0 n).2 then [StoreEvent.release] else [])

/-- Number of conn.execute calls search_with_filters performs: the
PRAGMA runs only when the query argument is truthy; the row query and
the count query always run (database.py lines 192, 224, 228). -/
def numExecs (query : Option String) : Nat := if hasText query then 3 else 2

/-- Connection events of search_with_filters (database.py 182-237). -/
def searchConnEvents (query : Option String) (failOn : Nat -> Bool) : List StoreEvent :=
  connEvents (numExecs query) failOn

/-- Connection events of search_entries: PRAGMA, row query, count
query (database.py 17-58). -/
def searchEntriesConnEvents (failOn : Nat -> Bool) : List StoreEvent :=
  connEvents 3 failOn

/-- Connection events of get_all_entries: row query and count query
(database.py 60-79). -/
def getAllEntriesConnEvents (failOn : Nat -> Bool) : List StoreEvent :=
  connEvents 2 failOn

/-- Connection events of get_entry_by_id: one query (database.py 81-90). -/
def getEntryConnEvents (failOn : Nat -> Bool) : List StoreEvent :=
  connEvents 1 failOn

/-- A small concrete table used by the witnesses: schema as the store
reports it, five rows in unsorted storage order. -/
def exRow1 : Record :=
  { object_id := 1
    fields := [("title", "Liver transcriptome study"), ("organism", "Homo sapiens"),
               ("data_type", "RNA-Seq"), ("library_strategy", "RNA-Seq")] }

def exRow2 : Record :=
  { object_id := 2
    fields := [("title", "Placental RNA-Seq atlas"), ("organism", "Homo sapiens"),
               ("data_type", "RNA-Seq")] }

def exRow17 : Record :=
  { object_id := 17
    fields := [("title", "Human placenta methylome"), ("organism", "Homo sapiens"),
               ("data_type", "Methylation")] }

def exRow40 : Record :=
  { object_id := 40
    fields := [("characteristics", "third trimester placenta"), ("organism", "Mus musculus")] }

def exRow50 : Record :=
  { object_id := 50
    fields := [("title", "Kidney single-cell atlas"), ("organism", "Mus musculus"),
               ("data_type", "scRNA-Seq")] }

def exTable : Table :=
  { cols := allColumns
    rows := [exRow17, exRow40, exRow2, exRow1, exRow50] }

/-- A record whose only text field is abc: the term a_c LIKE-matches it
although a_c is not a substring of any of its fields. -/
def wildRow : Record := { object_id := 3, fields := [("title", "abc")] }

/-! ### Lemmas about the LIKE matcher -/

theorem likeRunF_fuel : ∀ n m : Nat, ∀ (p : List LikeTok) (s : List Char),
    p.length + s.length < n → p.length + s.length < m →
    likeRunF n p s = likeRunF m p s := by
  intro n
  induction n with
  | zero => intro m p s hn _; exact absurd hn (Nat.not_lt_zero _)
  | succ n ih =>
    intro m p s hn hm
    match m with
    | 0 => exact absurd hm (Nat.not_lt_zero _)
    | m + 1 =>
      match p, s with
      | [], s => rfl
      | LikeTok.percent :: ps, [] =>
        simp only [likeRunF]
        exact ih m ps [] (by simp at hn ⊢; omega) (by simp at hm ⊢; omega)
      | LikeTok.percent :: ps, c :: cs =>
        simp only [likeRunF]
        rw [ih m ps (c :: cs) (by simp at hn ⊢; omega) (by simp at hm ⊢; omega),
          ih m (LikeTok.percent :: ps) cs (by simp at hn ⊢; omega) (by simp at hm ⊢; omega)]
      | LikeTok.underscore :: ps, [] => rfl
      | LikeTok.underscore :: ps, c :: cs =>
        simp only [likeRunF]
        exact ih m ps cs (by simp at hn ⊢; omega) (by simp at hm ⊢; omega)
      | LikeTok.lit a :: ps, [] => rfl
      | LikeTok.lit a :: ps, c :: cs =>
        simp only [likeRunF]
        rw [ih m ps cs (by simp at hn ⊢; omega) (by simp at hm ⊢; omega)]

theorem likeRun_nil (s : List Char) : likeRun [] s = s.isEmpty := rfl

theorem likeRun_percent_nil (ps : List LikeTok) :
    likeRun (LikeTok.percent :: ps) [] = likeRun ps [] := rfl

theorem likeRun_percent_cons (ps : List LikeTok) (c : Char) (cs : List Char) :
    likeRun (LikeTok.percent :: ps) (c :: cs) =
      (likeRun ps (c :: cs) || likeRun (LikeTok.percent :: ps) cs) := by
  show likeRunF (ps.length + 1 + (cs.length + 1) + 1) (LikeTok.percent :: ps) (c :: cs) = _
  simp only [likeRunF, likeRun, List.length_cons]
  rw [likeRunF_fuel (ps.length + 1 + (cs.length + 1)) (ps.length + (cs.length + 1) + 1)
      ps (c :: cs) (by simp) (by simp),
    likeRunF_fuel (ps.length + 1 + (cs.length + 1)) (ps.length + 1 + cs.length + 1)
      (LikeTok.percent :: ps) cs (by simp) (by simp)]

theorem likeRun_underscore_nil (ps : List LikeTok) :
    likeRun (LikeTok.underscore :: ps) [] = false := rfl

theorem likeRun_underscore_cons (ps : List LikeTok) (c : Char) (cs : List Char) :
    likeRun (LikeTok.underscore :: ps) (c :: cs) = likeRun ps cs := by
  show likeRunF (ps.length + 1 + (cs.length + 1) + 1) (LikeTok.underscore :: ps) (c :: cs) = _
  simp only [likeRunF, likeRun]
  exact likeRunF_fuel (ps.length + 1 + (cs.length + 1)) (ps.length + cs.length + 1)
    ps cs (by omega) (by omega)

theorem likeRun_lit_nil (a : Char) (ps : List LikeTok) :
    likeRun (LikeTok.lit a :: ps) [] = false := rfl

theorem likeRun_lit_cons (a : Char) (ps : List LikeTok) (c : Char) (cs : List Char) :
    likeRun (LikeTok.lit a :: ps) (c :: cs) = (charEqCI a c && likeRun ps cs) := by
  show likeRunF (ps.length + 1 + (cs.length + 1) + 1) (LikeTok.lit a :: ps) (c :: cs) = _
  simp only [likeRunF, likeRun]
  rw [likeRunF_fuel (ps.length + 1 + (cs.length + 1)) (ps.length + cs.length + 1)
    ps cs (by omega) (by omega)]

/-- A trailing percent wildcard alone matches everything. -/
theorem likeRun_percent_any (s : List Char) : likeRun [LikeTok.percent] s = true := by
  induction s with
  | nil => rfl
  | cons c cs ih => rw [likeRun_percent_cons, ih]; simp

/-- A literal pattern followed by a percent matches exactly the strings
the literal begins (under the store's comparison). -/
theorem likeRun_lits_percent (t : List Char) :
    ∀ s : List Char, likeRun (t.map LikeTok.lit ++ [LikeTok.percent]) s = startsWithCI t s := by
  induction t with
  | nil => intro s; simpa [startsWithCI] using likeRun_percent_any s
  | cons a ts ih =>
    intro s
    match s with
    | [] => simp [likeRun_lit_nil, startsWithCI]
    | c :: cs => rw [List.map_cons, List.cons_append, likeRun_lit_cons, ih cs]; rfl

/-- A percent, a literal run, and a percent match exactly the strings
containing the literal run (under the store's comparison). -/
theorem likeRun_percent_lits_percent (t : List Char) :
    ∀ s : List Char,
      likeRun (LikeTok.percent :: (t.map LikeTok.lit ++ [LikeTok.percent])) s = containsCI t s := by
  intro s
  induction s with
  | nil => rw [likeRun_percent_nil, likeRun_lits_percent]; rfl
  | cons c cs ih => rw [likeRun_percent_cons, likeRun_lits_percent, ih]; rfl

/-- Tokenising a wildcard-free term produces only literal tokens. -/
theorem patToks_noWild (t : String) (h : noWild t = true) :
    patToks t.data = t.data.map LikeTok.lit := by
  unfold patToks
  unfold noWild at h
  rw [List.all_eq_true] at h
  refine List.map_congr_left ?_
  intro c hc
  have := h c hc
  simp at this
  simp [this.1, this.2]

/-- For a wildcard-free term the LIKE test with pattern percent-term-percent
is exactly the substring test under the store's comparison. -/
theorem likeMatch_noWild (t : String) (h : noWild t = true) (s : String) :
    likeMatch ("%" ++ t ++ "%") s = containsCIStr t s := by
  unfold likeMatch containsCIStr
  have hdata : ("%" ++ t ++ "%").data = '%' :: (t.data ++ ['%']) := by
    rw [String.data_append, String.data_append]
    rfl
  have htoks : patToks ('%' :: (t.data ++ ['%'])) =
      LikeTok.percent :: (patToks t.data ++ [LikeTok.percent]) := by
    simp [patToks]
  rw [hdata, htoks, patToks_noWild t h]
  exact likeRun_percent_lits_percent t.data s.data

/-- For a wildcard-free term the text clause is exactly: some searchable
column contains the term as a substring. -/
theorem textClause_noWild (q : String) (h : noWild q = true) (cols : List String) (r : Record) :
    textClause q cols r = cols.any fun c => containsOptCI q (r.getField c) := by
  unfold textClause
  have hpt : ∀ v : Option String, likeOpt ("%" ++ q ++ "%") v = containsOptCI q v := by
    intro v
    match v with
    | none => rfl
    | some s => exact likeMatch_noWild q h s
  simp only [hpt]

/-! ### Composition of the WHERE clause -/

theorem whereDenote_append (a b : List (Record → Bool)) (r : Record) :
    whereDenote (a ++ b) r = (whereDenote a r && whereDenote b r) := by
  simp [whereDenote, List.all_append]

theorem whereDenote_groupClause (col : String) (og : Option (List String)) (r : Record) :
    whereDenote (groupClause col og) r =
      (og.getD [] == [] || inClause col (og.getD []) r) := by
  match og with
  | none => rfl
  | some [] => rfl
  | some (v :: vs) => simp [groupClause, whereDenote]

theorem whereDenote_textClauses (cols : List String) (q : Option String) (r : Record) :
    whereDenote (textClauses cols q) r =
      (!hasText q || textClause (textTerm q) (textCols cols) r) := by
  match q with
  | none => rfl
  | some s =>
    by_cases hs : s = ""
    · simp [textClauses, hasText, textTerm, hs, whereDenote]
    · simp [textClauses, hasText, textTerm, hs, whereDenote]

/-! ### Ordering and slicing -/

theorem sortByObjectId_perm (l : List Record) : (sortByObjectId l).Perm l :=
  List.perm_insertionSort _ l

theorem sortByObjectId_sorted (l : List Record) :
    List.Sorted (fun a b : Record => a.object_id ≤ b.object_id) (sortByObjectId l) :=
  List.sorted_insertionSort _ l

theorem sqlSlice_sublist (rows : List Record) (lim off : Int) :
    (sqlSlice rows lim off).Sublist rows := by
  unfold sqlSlice
  split
  · exact List.drop_sublist _ _
  · exact ((rows.drop off.toNat).take_sublist _).trans (List.drop_sublist _ _)

theorem search_with_filters_results_eq (t : Table) (q : Option String)
    (f : Option Filters) (page pp : Int) :
    (search_with_filters t q f page pp).results =
      sqlSlice (matchingRows t q f) pp (queryOffset page pp) := rfl

/-! ### Pagination arithmetic -/

theorem totalPages_eq_ceil (total : Nat) (pp : Int) (hpp : 0 < pp) :
    totalPages total pp = ⌈(total : ℚ) / (pp : ℚ)⌉ := by
  unfold totalPages
  rw [Int.fdiv_eq_ediv _ hpp.le]
  have hppQ : (0 : ℚ) < (pp : ℚ) := by exact_mod_cast hpp
  set T : Int := (total : Int) with hT
  set z : Int := (T + pp - 1) / pp with hz
  have hmod := Int.ediv_add_emod (T + pp - 1) pp
  have hnn : 0 ≤ (T + pp - 1) % pp := Int.emod_nonneg _ (ne_of_gt hpp)
  have hlt : (T + pp - 1) % pp < pp := Int.emod_lt_of_pos _ hpp
  rw [← hz] at hmod
  set w : Int := pp * z with hw
  have h1 : T ≤ w := by omega
  have h2 : pp * (z - 1) < T := by
    have hzz : pp * (z - 1) = w - pp := by rw [hw]; ring
    omega
  rw [eq_comm, Int.ceil_eq_iff]
  constructor
  · rw [lt_div_iff₀ hppQ]
    have h2' : (z - 1) * pp < T := by rw [mul_comm]; exact h2
    exact_mod_cast h2'
  · rw [div_le_iff₀ hppQ]
    have h1' : T ≤ z * pp := by rw [mul_comm]; exact h1
    exact_mod_cast h1'

theorem totalPages_zero (pp : Int) (hpp : 0 < pp) : totalPages 0 pp = 0 := by
  unfold totalPages
  rw [Int.fdiv_eq_ediv _ hpp.le]
  have h0 : ((0 : Nat) : Int) + pp - 1 = pp - 1 := by ring
  rw [h0]
  exact Int.ediv_eq_zero_of_lt (by omega) (by omega)

/-! ### Single-record lookup -/

theorem head_filter_id_eq_some (l : List Record) (i : Nat) (r : Record)
    (hmem : r ∈ l) (hid : r.object_id = i)
    (hnodup : (l.map Record.object_id).Nodup) :
    (l.filter fun x => x.object_id = i).head? = some r := by
  induction l with
  | nil => cases hmem
  | cons a l ih =>
    rw [List.map_cons, List.nodup_cons] at hnodup
    obtain ⟨hna, hnd⟩ := hnodup
    rcases List.mem_cons.mp hmem with h | h
    · subst h
      simp [List.filter_cons, hid]
    · have hai : ¬(a.object_id = i) := by
        intro he
        exact hna (by rw [he, ← hid]; exact List.mem_map_of_mem Record.object_id h)
      have hd : (decide (a.object_id = i)) = false := by simp [hai]
      simp only [List.filter_cons, hd, Bool.false_eq_true, if_false]
      exact ih h hnd

theorem filter_id_eq_nil (l : List Record) (i : Nat)
    (h : ∀ r ∈ l, r.object_id ≠ i) :
    (l.filter fun x => x.object_id = i) = [] := by
  rw [List.filter_eq_nil_iff]
  intro r hr
  simp [h r hr]

theorem le_foldr_max (l : List Nat) (a : Nat) (h : a ∈ l) : a ≤ l.foldr max 0 := by
  induction l with
  | nil => cases h
  | cons b l ih =>
    rcases List.mem_cons.mp h with rfl | h
    · exact le_max_left _ _
    · exact le_trans (ih h) (le_max_right _ _)

/-! ### Connection lifecycle -/

theorem runExecs_ok_events (failOn : Nat → Bool) :
    ∀ n i, (∀ j, j < n → failOn (i + j) = false) →
      runExecs failOn i n = (List.replicate n StoreEvent.execOk, true) := by
  intro n
  induction n with
  | zero => intro i _; rfl
  | succ n ih =>
    intro i h
    have h0 : failOn i = false := by have := h 0 (Nat.succ_pos n); simpa using this
    have hrest : ∀ j, j < n → failOn (i + 1 + j) = false := by
      intro j hj
      have := h (j + 1) (by omega)
      rwa [show i + (j + 1) = i + 1 + j by omega] at this
    simp [runExecs, h0, ih (i + 1) hrest, List.replicate_succ]

theorem runExecs_fail (failOn : Nat → Bool) :
    ∀ n i j, j < n → failOn (i + j) = true → (runExecs failOn i n).2 = false := by
  intro n
  induction n with
  | zero => intro i j hj _; exact absurd hj (Nat.not_lt_zero _)
  | succ n ih =>
    intro i j hj hf
    by_cases h0 : failOn i
    · simp [runExecs, h0]
    · match j with
      | 0 => rw [Nat.add_zero] at hf; exact absurd hf (by simp [h0])
      | j + 1 =>
        have : failOn (i + 1 + j) = true := by rwa [show i + (j + 1) = i + 1 + j by omega] at hf
        simp [runExecs, h0, ih (i + 1) j (by omega) this]

theorem runExecs_no_release (failOn : Nat → Bool) :
    ∀ n i, StoreEvent.release ∉ (runExecs failOn i n).1 := by
  intro n
  induction n with
  | zero => intro i; simp [runExecs]
  | succ n ih =>
    intro i
    by_cases h0 : failOn i <;> simp [runExecs, h0]
    exact ih (i + 1)

theorem connEvents_success (n : Nat) (failOn : Nat → Bool)
    (h : ∀ j, j < n → failOn j = false) :
    connEvents n failOn =
      StoreEvent.acquire :: List.replicate n StoreEvent.execOk ++ [StoreEvent.release] := by
  unfold connEvents
  have heq := runExecs_ok_events failOn n 0 (by intro j hj; simpa using h j hj)
  rw [heq]
  simp

theorem connEvents_fail (n : Nat) (failOn : Nat → Bool) (j : Nat)
    (hj : j < n) (hf : failOn j = true) :
    StoreEvent.release ∉ connEvents n failOn := by
  unfold connEvents
  have hok : (runExecs failOn 0 n).2 = false :=
    runExecs_fail failOn n 0 j hj (by simpa using hf)
  rw [hok]
  intro hmem
  rcases List.mem_cons.mp hmem with h | h
  · cases h
  · rw [List.mem_append] at h
    rcases h with h | h
    · exact runExecs_no_release failOn n 0 h
    · simp at h

/-- When the assembled predicate rejects every row, the operation
returns total 0 and an empty page. -/
theorem search_empty_of_filter_nil (t : Table) (q : Option String)
    (f : Option Filters) (page pp : Int)
    (h : t.rows.filter (whereDenote (buildClauses t.cols q f)) = []) :
    (search_with_filters t q f page pp).total = 0
    ∧ (search_with_filters t q f page pp).results = [] := by
  have hm : matchingRows t q f = [] := by unfold matchingRows; rw [h]; rfl
  constructor
  · show (matchingRows t q f).length = 0
    rw [hm]; rfl
  · show sqlSlice (matchingRows t q f) pp (queryOffset page pp) = []
    rw [hm]
    unfold sqlSlice
    split <;> simp

/-- C1: the predicate search_with_filters builds is the logical AND of
the text clause (present exactly when the text term is truthy) and one
membership clause per non-empty filter group; with no text term and no
filters no clause at all is built, the predicate holds of every record,
and the operation reports every stored row. -/
theorem claim1_predicate_and_composition :
    (∀ (cols : List String) (q : Option String) (f : Option Filters) (r : Record),
      whereDenote (buildClauses cols q f) r =
        ((!hasText q || textClause (textTerm q) (textCols cols) r)
          && (selOrganisms f == [] || inClause "organism" (selOrganisms f) r)
          && (selDataTypes f == [] || inClause "data_type" (selDataTypes f) r)
          && (selStrategies f == [] || inClause "library_strategy" (selStrategies f) r)))
    ∧ (∀ cols : List String, buildClauses cols none none = [])
    ∧ (∀ (cols : List String) (r : Record), whereDenote (buildClauses cols none none) r = true)
    ∧ (∀ (t : Table) (page pp : Int),
        (search_with_filters t none none page pp).total = t.rows.length) := by
  refine ⟨?_, fun _ => rfl, fun _ _ => rfl, ?_⟩
  · intro cols q f r
    unfold buildClauses
    rw [whereDenote_append, whereDenote_textClauses]
    match f with
    | none => simp [filterClauses, whereDenote, selOrganisms, selDataTypes, selStrategies]
    | some ff =>
      unfold filterClauses
      rw [whereDenote_append, whereDenote_append, whereDenote_groupClause,
        whereDenote_groupClause, whereDenote_groupClause]
      simp [selOrganisms, selDataTypes, selStrategies, Bool.and_assoc]
  · intro t page pp
    show (matchingRows t none none).length = t.rows.length
    unfold matchingRows
    rw [(sortByObjectId_perm _).length_eq]
    have hall : t.rows.filter (whereDenote (buildClauses t.cols none none)) = t.rows := by
      apply List.filter_eq_self.mpr
      intro a _
      rfl
    rw [hall]

/-- C3: for positive per_page, total_pages is the ceiling of
total / per_page, it is 0 at total 0, and every paginated operation
derives its total_pages field by this same function of its total. -/
theorem claim3_total_pages_ceil (pp : Int) (hpp : 0 < pp) :
    (∀ total : Nat, totalPages total pp = ⌈(total : ℚ) / (pp : ℚ)⌉)
    ∧ totalPages 0 pp = 0
    ∧ (∀ (t : Table) (q : Option String) (f : Option Filters) (page : Int),
        (search_with_filters t q f page pp).total_pages =
          totalPages (search_with_filters t q f page pp).total pp)
    ∧ (∀ (t : Table) (q : String) (page : Int),
        (search_entries t q page pp).total_pages =
          totalPages (search_entries t q page pp).total pp)
    ∧ (∀ (t : Table) (page : Int),
        (get_all_entries t page pp).total_pages =
          totalPages (get_all_entries t page pp).total pp) :=
  ⟨fun total => totalPages_eq_ceil total pp hpp, totalPages_zero pp hpp,
    fun _ _ _ _ => rfl, fun _ _ _ => rfl, fun _ _ => rfl⟩

theorem claim3_witness :
    (0 : Int) < 20
    ∧ totalPages 45 20 = ⌈(45 : ℚ) / (20 : ℚ)⌉
    ∧ totalPages 0 20 = 0 :=
  ⟨by decide, (claim3_total_pages_ceil 20 (by decide)).1 45,
    (claim3_total_pages_ceil 20 (by decide)).2.1⟩

/-- C4: the page of rows and the reported total come from one and the
same predicate: total is the length of the filtered row list the page
was sliced from, and every returned row satisfies that predicate. -/
theorem claim4_total_matches_results :
    ∀ (t : Table) (q : Option String) (f : Option Filters) (page pp : Int),
      (search_with_filters t q f page pp).results =
          sqlSlice (matchingRows t q f) pp (queryOffset page pp)
        ∧ (search_with_filters t q f page pp).total = (matchingRows t q f).length
        ∧ (search_with_filters t q f page pp).total =
            (t.rows.filter (whereDenote (buildClauses t.cols q f))).length
        ∧ ((search_with_filters t q f page pp).results.all
            (whereDenote (buildClauses t.cols q f))) = true
        ∧ (search_with_filters t q f page pp).results.Sublist (matchingRows t q f) := by
  intro t q f page pp
  refine ⟨rfl, rfl, ?_, ?_, ?_⟩
  · show (matchingRows t q f).length = _
    exact (sortByObjectId_perm _).length_eq
  · rw [List.all_eq_true]
    intro r hr
    have hr2 : r ∈ matchingRows t q f := (sqlSlice_sublist _ _ _).subset hr
    have hr3 : r ∈ t.rows.filter (whereDenote (buildClauses t.cols q f)) :=
      (sortByObjectId_perm _).subset hr2
    exact List.of_mem_filter hr3
  · exact sqlSlice_sublist _ _ _

/-- C6: every returned page is sorted ascending by identifier, and the
placenta scenario (records 2, 17, 40 match) reports total 3 with the
identifiers in order [2, 17, 40] on page 1. -/
theorem claim6_ordering :
    (∀ (t : Table) (q : Option String) (f : Option Filters) (page pp : Int),
      List.Sorted (fun a b : Record => a.object_id ≤ b.object_id)
        (search_with_filters t q f page pp).results)
    ∧ (search_with_filters exTable (some "placenta") none 1 20).total = 3
    ∧ (search_with_filters exTable (some "placenta") none 1 20).results.map Record.object_id
        = [2, 17, 40] := by
  refine ⟨?_, by decide, by decide⟩
  intro t q f page pp
  exact List.Pairwise.sublist (sqlSlice_sublist _ _ _) (sortByObjectId_sorted _)

/-- C2 as stated fails: the non-empty trimmed term a_c matches the text
predicate on the record whose only field is abc, although no searchable
column contains a_c as a substring — the underscore acts as a wildcard. -/
theorem claim2_counterexample :
    textClause "a_c" (textCols allColumns) wildRow = true
    ∧ ((textCols allColumns).any fun c => containsOptCI "a_c" (wildRow.getField c)) = false :=
  ⟨by decide, by decide⟩

/-- C2 amended: for every non-empty term free of the LIKE wildcards
percent and underscore, a record matches the text predicate iff some
searchable column contains the term as a substring (under the store's
default case-insensitive comparison); a term contained in no field of
any record yields total 0 and empty results. -/
theorem claim2_text_match_amended (q : String) (hq : q ≠ "") (hw : noWild q = true) :
    (∀ (cols : List String) (r : Record),
      textClause q cols r = (cols.any fun c => containsOptCI q (r.getField c)))
    ∧ (∀ (t : Table) (page pp : Int),
        (∀ r ∈ t.rows, ∀ c ∈ textCols t.cols, containsOptCI q (r.getField c) = false) →
        (search_with_filters t (some q) none page pp).total = 0
        ∧ (search_with_filters t (some q) none page pp).results = []) := by
  constructor
  · intro cols r
    exact textClause_noWild q hw cols r
  · intro t page pp h
    apply search_empty_of_filter_nil
    rw [List.filter_eq_nil_iff]
    intro r hr
    simp only [buildClauses, textClauses, filterClauses, if_neg hq, List.append_nil,
      whereDenote, List.all_cons, List.all_nil, Bool.and_true]
    intro hany
    rw [textClause_noWild q hw] at hany
    rw [List.any_eq_true] at hany
    obtain ⟨c, hc, hcv⟩ := hany
    rw [h r hr c hc] at hcv
    cases hcv

theorem claim2_witness :
    ("zzz" ≠ "" ∧ noWild "zzz" = true)
    ∧ textClause "zzz" (textCols allColumns) exRow2
        = ((textCols allColumns).any fun c => containsOptCI "zzz" (exRow2.getField c))
    ∧ (search_with_filters exTable (some "zzz") none 1 20).total = 0
    ∧ (search_with_filters exTable (some "zzz") none 1 20).results = [] := by
  have h := claim2_text_match_amended "zzz" (by decide) (by decide)
  have h2 := h.2 exTable 1 20 (by decide)
  exact ⟨⟨by decide, by decide⟩, h.1 (textCols allColumns) exRow2, h2.1, h2.2⟩

/-- C5 as stated fails: at page 0 the layer computes the negative
offset -20 and passes it on — the page is neither clamped in the
reported value nor treated as empty. -/
theorem claim5_counterexample :
    queryOffset 0 20 = -20
    ∧ queryOffset 0 20 < 0
    ∧ (search_with_filters exTable none none 0 20).page = 0
    ∧ (search_with_filters exTable none none 0 20).results ≠ [] :=
  ⟨by decide, by decide, by decide, by decide⟩

/-- C5 amended: for page below 1 the layer performs no explicit
handling: the offset (page - 1) * per_page is computed negative and
handed to the store, which reads it as zero, so the operation returns
the same rows as page 1 while echoing the requested page number. -/
theorem claim5_amended (t : Table) (q : Option String) (f : Option Filters)
    (page pp : Int) (hpage : page < 1) (hpp : 0 < pp) :
    queryOffset page pp < 0
    ∧ (search_with_filters t q f page pp).results = (search_with_filters t q f 1 pp).results
    ∧ (search_with_filters t q f page pp).page = page := by
  have hoff : queryOffset page pp < 0 := by
    unfold queryOffset
    exact mul_neg_of_neg_of_pos (by omega) hpp
  refine ⟨hoff, ?_, rfl⟩
  show sqlSlice (matchingRows t q f) pp (queryOffset page pp)
      = sqlSlice (matchingRows t q f) pp (queryOffset 1 pp)
  have h1 : (queryOffset page pp).toNat = 0 := Int.toNat_of_nonpos hoff.le
  have h2 : (queryOffset 1 pp).toNat = 0 := by
    unfold queryOffset
    norm_num
  unfold sqlSlice
  rw [h1, h2]

theorem claim5_witness :
    ((0 : Int) < 1 ∧ (0 : Int) < 20)
    ∧ queryOffset 0 20 < 0
    ∧ (search_with_filters exTable none none 0 20).results
        = (search_with_filters exTable none none 1 20).results := by
  have h := claim5_amended exTable none none 0 20 (by decide) (by decide)
  exact ⟨⟨by decide, by decide⟩, h.1, h.2.1⟩

/-- C7: when identifiers are unique, lookup returns the matching record
when one exists, the explicit not-found value when no row matches, and
in particular not-found one past the maximum assigned identifier; the
function is total, so a well-formed absent identifier never raises. -/
theorem claim7_lookup (t : Table) (i : Nat)
    (hnodup : (t.rows.map Record.object_id).Nodup) :
    (∀ r ∈ t.rows, r.object_id = i → get_entry_by_id t i = some r)
    ∧ ((∀ r ∈ t.rows, r.object_id ≠ i) → get_entry_by_id t i = none)
    ∧ get_entry_by_id t (maxId t + 1) = none := by
  refine ⟨?_, ?_, ?_⟩
  · intro r hr hid
    exact head_filter_id_eq_some t.rows i r hr hid hnodup
  · intro h
    unfold get_entry_by_id
    rw [filter_id_eq_nil t.rows i h]
    rfl
  · unfold get_entry_by_id
    rw [filter_id_eq_nil t.rows (maxId t + 1) ?_]
    · rfl
    · intro r hr
      have hle := le_foldr_max (t.rows.map Record.object_id) r.object_id
        (List.mem_map_of_mem Record.object_id hr)
      show r.object_id ≠ maxId t + 1
      unfold maxId
      omega

theorem claim7_witness :
    (exTable.rows.map Record.object_id).Nodup
    ∧ get_entry_by_id exTable 17 = some exRow17
    ∧ get_entry_by_id exTable (maxId exTable + 1) = none := by
  refine ⟨by decide, ?_, (claim7_lookup exTable 17 (by decide)).2.2⟩
  exact (claim7_lookup exTable 17 (by decide)).1 exRow17 (by decide) rfl

/-- C8: a filter group present in the request but empty contributes no
predicate (the result is the same as with the group absent, for each of
the three groups), and a filter value occurring in no record yields
total 0 and an empty result list rather than an error. -/
theorem claim8_empty_groups_and_absent_values (t : Table) (q : Option String)
    (og dt ls : Option (List String)) (page pp : Int) (v : String) :
    search_with_filters t q (some ⟨some [], dt, ls⟩) page pp
        = search_with_filters t q (some ⟨none, dt, ls⟩) page pp
    ∧ search_with_filters t q (some ⟨og, some [], ls⟩) page pp
        = search_with_filters t q (some ⟨og, none, ls⟩) page pp
    ∧ search_with_filters t q (some ⟨og, dt, some []⟩) page pp
        = search_with_filters t q (some ⟨og, dt, none⟩) page pp
    ∧ ((∀ r ∈ t.rows, r.getField "organism" ≠ some v) →
        (search_with_filters t none (some ⟨some [v], none, none⟩) page pp).total = 0
        ∧ (search_with_filters t none (some ⟨some [v], none, none⟩) page pp).results = []) := by
  refine ⟨rfl, rfl, rfl, ?_⟩
  intro h
  apply search_empty_of_filter_nil
  rw [List.filter_eq_nil_iff]
  intro r hr
  simp only [buildClauses, textClauses, filterClauses, groupClause, List.nil_append,
    List.append_nil, whereDenote, List.all_cons, List.all_nil, Bool.and_true]
  unfold inClause
  cases hg : r.getField "organism" with
  | none => simp
  | some w =>
    have hw : ¬(w = v) := fun he => h r hr (by rw [hg, he])
    simp [hw]

theorem claim8_witness :
    (search_with_filters exTable none (some ⟨some [], none, none⟩) 1 20
        = search_with_filters exTable none (some ⟨none, none, none⟩) 1 20)
    ∧ (∀ r ∈ exTable.rows, r.getField "organism" ≠ some "Martian")
    ∧ (search_with_filters exTable none (some ⟨some ["Martian"], none, none⟩) 1 20).total = 0
    ∧ (search_with_filters exTable none (some ⟨some ["Martian"], none, none⟩) 1 20).results
        = [] := by
  obtain ⟨h1, _, _, h4⟩ :=
    claim8_empty_groups_and_absent_values exTable none none none none 1 20 "Martian"
  have hm : ∀ r ∈ exTable.rows, r.getField "organism" ≠ some "Martian" := by decide
  exact ⟨h1, hm, (h4 hm).1, (h4 hm).2⟩

/-- C9 as stated fails: when the first store query of
search_with_filters raises, the function body is abandoned before
conn.close() and the connection is never released. -/
theorem claim9_counterexample :
    searchConnEvents none (fun _ => true) = [StoreEvent.acquire, StoreEvent.execFail]
    ∧ StoreEvent.release ∉ searchConnEvents none (fun _ => true) :=
  ⟨by decide, by decide⟩

/-- C9 amended: on the all-success path every operation releases the
connection as its final action, but none of the operations guards the
body with try/finally, so as soon as any query raises, the failure
propagates with the connection still unreleased. -/
theorem claim9_release_amended (n : Nat) (failOn : Nat → Bool) :
    ((∀ j, j < n → failOn j = false) →
      connEvents n failOn =
        StoreEvent.acquire :: List.replicate n StoreEvent.execOk ++ [StoreEvent.release])
    ∧ (∀ j, j < n → failOn j = true → StoreEvent.release ∉ connEvents n failOn)
    ∧ (∀ q : Option String, searchConnEvents q failOn = connEvents (numExecs q) failOn)
    ∧ searchEntriesConnEvents failOn = connEvents 3 failOn
    ∧ getAllEntriesConnEvents failOn = connEvents 2 failOn
    ∧ getEntryConnEvents failOn = connEvents 1 failOn :=
  ⟨connEvents_success n failOn, fun j hj hf => connEvents_fail n failOn j hj hf,
    fun _ => rfl, rfl, rfl, rfl⟩

theorem claim9_witness :
    (∀ j : Nat, j < 2 → (fun _ : Nat => false) j = false)
    ∧ connEvents 2 (fun _ => false)
        = StoreEvent.acquire :: List.replicate 2 StoreEvent.execOk ++ [StoreEvent.release]
    ∧ ((0 : Nat) < 2 ∧ (fun _ : Nat => true) 0 = true)
    ∧ StoreEvent.release ∉ connEvents 2 (fun _ => true) := by
  have hA := (claim9_release_amended 2 (fun _ => false)).1 (fun j hj => rfl)
  have hB := (claim9_release_amended 2 (fun _ => true)).2.1 0 (by decide) rfl
  exact ⟨fun j hj => rfl, hA, ⟨by decide, rfl⟩, hB⟩

/-- C10: the term is embedded in the LIKE pattern without escaping, so
a term carrying an underscore matches the record whose only field is
abc via the wildcard, while no searchable column of that record
contains the term as a literal substring. -/
theorem claim10_unescaped_wildcards :
    likeMatch ("%" ++ "a_c" ++ "%") "abc" = true
    ∧ containsCIStr "a_c" "abc" = false
    ∧ textClause "a_c" (textCols allColumns) wildRow = true
    ∧ ((textCols allColumns).any fun c => containsOptCI "a_c" (wildRow.getField c)) = false :=
  ⟨by decide, by decide, by decide, by decide⟩
